import Mathlib

/-!
Shallow embedding of the shelf.nu location service, note form, bulk-update
modal flow and asset-detail action, together with proofs of the spec's
claims about them.

The database is modelled as explicit lists of rows; Prisma calls become
pure functions on that state; thrown errors become `Except` values.
-/

namespace Shelf

/-! ## Error model

`ShelfError` itself lives in `~/utils/error`, outside the provided sources.
Modelled from the spec: errors are normalized into a single domain error
shape carrying a user-facing message, an HTTP-like status, and a flag
indicating whether the error should be captured for monitoring.
-/

/-- Modelled from the spec: the normalized domain error shape of
`~/utils/error` (message, HTTP-like status, capture flag). -/
structure ShelfError where
  status : Nat
  message : String
  shouldBeCaptured : Bool
  deriving DecidableEq, Repr

/-- A cause caught at a service boundary: a Prisma not-found error
(`findFirstOrThrow` / P2025), a Prisma unique-constraint violation (P2002),
or an already-shaped `ShelfError`. -/
inductive ErrorCause where
  | dbNotFound
  | dbUniqueViolation
  | shelf (e : ShelfError)
  deriving DecidableEq, Repr

/-! ## Data model -/

/-- The `Location` row as used by the location service module: primary key,
name (unique per organization), owning organization, creating user and an
optional image row reference. -/
structure Location where
  id : String
  name : String
  organizationId : String
  userId : String
  imageId : Option String
  deriving DecidableEq, Repr

/-- The `Asset` fields the location service touches: primary key, title and
the location foreign key. -/
structure Asset where
  id : String
  title : String
  locationId : String
  deriving DecidableEq, Repr

/-- Database state touched by the location service: the location table and
the image table (image rows by id). -/
structure DB where
  locations : List Location
  images : List String
  deriving DecidableEq, Repr

/-! ## Pagination (`getLocations` / `getLocation`)

Both functions compute, with identical code,
`skip = page > 1 ? (page - 1) * perPage : 0` and
`take = perPage >= 1 ? perPage : 8`.
-/

/-- `const skip = page > 1 ? (page - 1) * perPage : 0;` -/
def skipOf (page perPage : Int) : Int :=
  if 1 < page then (page - 1) * perPage else 0

/-- `const take = perPage >= 1 ? perPage : 8; // min 1 and max 25 per page` -/
def takeOf (perPage : Int) : Int :=
  if 1 ≤ perPage then perPage else 8

/-! ## Case-insensitive substring search

Prisma's `{ contains: search, mode: "insensitive" }` filter: substring
containment after lowercasing both sides.
-/

/-- `matchAt needle hay` is true when `hay` starts with `needle`. -/
def matchAt : List Char → List Char → Bool
  | [], _ => true
  | _ :: _, [] => false
  | a :: ns, b :: hs => a = b && matchAt ns hs

/-- `findSub needle hay` is true when `needle` occurs contiguously in `hay`. -/
def findSub (needle : List Char) : List Char → Bool
  | [] => matchAt needle []
  | b :: hs => matchAt needle (b :: hs) || findSub needle hs

/-- Prisma `contains`/`insensitive`: `sub` occurs in `hay` ignoring case
(both sides lowercased character by character). -/
def containsCI (hay sub : String) : Bool :=
  findSub (sub.toList.map Char.toLower) (hay.toList.map Char.toLower)

/-! ## `getLocations` where-object -/

/-- The Prisma where object built by `getLocations`: always
`{ organizationId }`, plus a case-insensitive `contains` filter on `name`
when the search string is truthy. -/
structure LocationWhere where
  organizationId : String
  nameContains : Option String
  deriving DecidableEq, Repr

/-- `let where = { organizationId }; if (search) where.name = { contains:
search, mode: "insensitive" }` — a JS string is truthy when present and
non-empty. -/
def buildLocationsWhere (organizationId : String) (search : Option String) :
    LocationWhere :=
  let w : LocationWhere := { organizationId := organizationId, nameContains := none }
  match search with
  | some s => if s = "" then w else { w with nameContains := some s }
  | none => w

/-- Row semantics of `LocationWhere`. -/
def locationMatchesWhere (w : LocationWhere) (l : Location) : Bool :=
  l.organizationId = w.organizationId &&
    match w.nameContains with
    | none => true
    | some s => containsCI l.name s

/-- The rows of the location table matched by `getLocations`' where object
(the result set before `skip`/`take` pagination is applied). -/
def getLocationsMatching (locations : List Location) (organizationId : String)
    (search : Option String) : List Location :=
  locations.filter (locationMatchesWhere (buildLocationsWhere organizationId search))

/-- `getLocations`: filter by the where object, order aside, paginate with
`skip`/`take`, and count the matching rows. -/
def getLocations (locations : List Location) (organizationId : String)
    (page perPage : Int) (search : Option String) : List Location × Nat :=
  let skip := skipOf page perPage
  let take := takeOf perPage
  let matching := getLocationsMatching locations organizationId search
  ((matching.drop skip.toNat).take take.toNat, matching.length)

/-! ## `getLocation` -/

/-- The assets where object of `getLocation`: a case-insensitive `contains`
filter on `title` when the search string is truthy, else empty. -/
def buildAssetsWhere (search : Option String) : Option String :=
  match search with
  | some s => if s = "" then none else some s
  | none => none

/-- Row semantics of the assets where object. -/
def assetMatchesWhere (w : Option String) (a : Asset) : Bool :=
  match w with
  | none => true
  | some s => containsCI a.title s

/-- The `findFirstOrThrow` condition of `getLocation`:
`OR: [{ id, organizationId }, ...(userOrganizations?.length ? [{ id,
organizationId: { in: otherOrganizationIds } }] : [])]`. -/
def getLocationFindCond (locId orgId : String) (userOrgs : List String)
    (l : Location) : Bool :=
  l.id = locId &&
    (l.organizationId = orgId || (!userOrgs.isEmpty && l.organizationId ∈ userOrgs))

/-- The catch-all wrap of `getLocation`: every cause is rethrown as a
`ShelfError` titled "Location not found". Modelled from the spec for the
parts living in `~/utils/error`: a not-found cause is surfaced as
404-equivalent, and a `ShelfError` cause keeps its own status; the capture
flag is the cause's for `ShelfError` causes and false for not-found ones. -/
def wrapGetLocationError (cause : ErrorCause) : ShelfError :=
  { status :=
      match cause with
      | .shelf e => e.status
      | .dbNotFound => 404
      | .dbUniqueViolation => 500
    message :=
      "The location you are trying to access does not exist or you do not have permission to access it."
    shouldBeCaptured :=
      match cause with
      | .shelf e => e.shouldBeCaptured
      | .dbNotFound => false
      | .dbUniqueViolation => true }

/-- The `ShelfError` thrown by `getLocation` when the location was found
through the caller's other organizations: explicit `status: 404`,
`shouldBeCaptured: false`. -/
def wrongOrgError : ShelfError :=
  { status := 404, message := "", shouldBeCaptured := false }

/-- Result shape of `getLocation`: the location row, its included (searched
and paginated) assets, and the unfiltered asset count for the location. -/
structure GetLocationResult where
  location : Location
  assets : List Asset
  totalAssetsWithinLocation : Nat
  deriving DecidableEq, Repr

/-- `getLocation`: find the location by id within the caller's organization
(or, when `userOrganizations` is supplied, within any of those), load its
assets filtered by the search and paginated by `skip`/`take`, count all its
assets; a find miss or a cross-organization hit is rethrown through
`wrapGetLocationError`. -/
def getLocation (db : DB) (assets : List Asset) (locId orgId : String)
    (userOrgs : List String) (page perPage : Int) (search : Option String) :
    Except ShelfError GetLocationResult :=
  let skip := skipOf page perPage
  let take := takeOf perPage
  let aw := buildAssetsWhere search
  match db.locations.find? (getLocationFindCond locId orgId userOrgs) with
  | none => .error (wrapGetLocationError .dbNotFound)
  | some l =>
    if !userOrgs.isEmpty && l.organizationId ≠ orgId && l.organizationId ∈ userOrgs then
      .error (wrapGetLocationError (.shelf wrongOrgError))
    else
      .ok
        { location := l
          assets :=
            (((assets.filter fun a => a.locationId = l.id && assetMatchesWhere aw a).drop
              skip.toNat).take take.toNat)
          totalAssetsWithinLocation := (assets.filter fun a => a.locationId = locId).length }

/-! ## `createLocation` / `updateLocation`

The Prisma schema is outside the provided sources. Modelled from the spec:
`Location.name` is unique per organization, so `db.location.create` and
`db.location.update` raise a unique-constraint violation (P2002) when the
written name is already taken by another location of the same organization.
-/

/-- Modelled from the spec: `db.location.create` under the
name-unique-per-organization constraint — fails with a unique-constraint
violation when a location of the same organization already has the name,
otherwise appends the row. -/
def dbLocationCreate (locations : List Location) (newLoc : Location) :
    Except ErrorCause (List Location) :=
  if locations.any fun l => l.name = newLoc.name && l.organizationId = newLoc.organizationId then
    .error .dbUniqueViolation
  else
    .ok (locations ++ [newLoc])

/-- Modelled from the spec: `maybeUniqueConstraintViolation` from
`~/utils/error` — translates a P2002 unique-constraint cause into a
user-facing duplicate-name `ShelfError` (validation status 400) instead of
the raw database error; any other cause becomes a generic 500. -/
def maybeUniqueConstraintViolation (cause : ErrorCause) (modelName : String) :
    ShelfError :=
  match cause with
  | .dbUniqueViolation =>
    { status := 400
      message := modelName ++ " name is already taken. Please choose a different name."
      shouldBeCaptured := false }
  | .shelf e => e
  | .dbNotFound =>
    { status := 500
      message := "Something went wrong"
      shouldBeCaptured := true }

/-- `createLocation`: create the row connected to the user and organization;
any thrown cause goes through `maybeUniqueConstraintViolation "Location"`. -/
def createLocation (locations : List Location) (newId name userId organizationId : String) :
    Except ShelfError (Location × List Location) :=
  let newLoc : Location :=
    { id := newId, name := name, organizationId := organizationId
      userId := userId, imageId := none }
  match dbLocationCreate locations newLoc with
  | .ok locations2 => .ok (newLoc, locations2)
  | .error cause => .error (maybeUniqueConstraintViolation cause "Location")

/-- Modelled from the spec: `db.location.update` with
`where: { id, organizationId }` under the name-unique-per-organization
constraint — not-found when no such row exists, unique-constraint violation
when another row of the same organization already has the new name,
otherwise the renamed row and table. An absent `name` leaves the name
unchanged (Prisma skips `undefined` fields). -/
def dbLocationUpdate (locations : List Location) (locId orgId : String)
    (name : Option String) : Except ErrorCause (Location × List Location) :=
  match locations.find? fun l => l.id = locId && l.organizationId = orgId with
  | none => .error .dbNotFound
  | some l =>
    let newName := name.getD l.name
    if locations.any fun l2 =>
        l2.id ≠ locId && l2.name = newName && l2.organizationId = orgId then
      .error .dbUniqueViolation
    else
      let updated := { l with name := newName }
      .ok (updated,
        locations.map fun l2 =>
          if l2.id = locId && l2.organizationId = orgId then updated else l2)

/-- `updateLocation`: update name/address/description of the row scoped by
`{ id, organizationId }`; any thrown cause goes through
`maybeUniqueConstraintViolation "Location"`. -/
def updateLocation (locations : List Location) (locId orgId : String)
    (name : Option String) : Except ShelfError (Location × List Location) :=
  match dbLocationUpdate locations locId orgId name with
  | .ok r => .ok r
  | .error cause => .error (maybeUniqueConstraintViolation cause "Location")

/-! ## `deleteLocation` -/

/-- The catch-all wrap of `deleteLocation`: "Something went wrong while
deleting the location". Status defaults modelled from the spec as in
`wrapGetLocationError`. -/
def wrapDeleteLocationError (cause : ErrorCause) : ShelfError :=
  { status :=
      match cause with
      | .shelf e => e.status
      | .dbNotFound => 404
      | .dbUniqueViolation => 500
    message := "Something went wrong while deleting the location"
    shouldBeCaptured := true }

/-- `deleteLocation`: `db.location.delete({ where: { id, organizationId } })`
(throws not-found when no such row), then, when the deleted location had an
`imageId`, `db.image.delete` on that image row (throws not-found when the
image row is missing). -/
def deleteLocation (db : DB) (locId orgId : String) :
    Except ShelfError (Location × DB) :=
  match db.locations.find? fun l => l.id = locId && l.organizationId = orgId with
  | none => .error (wrapDeleteLocationError .dbNotFound)
  | some l =>
    let db1 : DB :=
      { db with
        locations := db.locations.filter fun l2 =>
          !(l2.id = locId && l2.organizationId = orgId) }
    match l.imageId with
    | none => .ok (l, db1)
    | some imgId =>
      if imgId ∈ db1.images then
        .ok (l, { db1 with images := db1.images.filter fun i => i ≠ imgId })
      else
        .error (wrapDeleteLocationError .dbNotFound)

/-! ## `bulkDeleteLocations` -/

/-- The reserved "all selected" sentinel from `~/utils/list`
(`ALL_SELECTED_KEY`); only its membership in the id list matters. -/
def ALL_SELECTED_KEY : String := "all-selected"

/-- The `findMany` where object of `bulkDeleteLocations`:
`locationIds.includes(ALL_SELECTED_KEY) ? { organizationId } : { id: { in:
locationIds }, organizationId }`. -/
def bulkDeleteMatches (locationIds : List String) (organizationId : String)
    (l : Location) : Bool :=
  if ALL_SELECTED_KEY ∈ locationIds then
    l.organizationId = organizationId
  else
    l.id ∈ locationIds && l.organizationId = organizationId

/-- `bulkDeleteLocations`: select the targeted locations (all of the
organization when the sentinel is present, else the listed ids scoped to
the organization), then in one transaction `deleteMany` the locations by
their ids and `deleteMany` the image rows of those that had one. -/
def bulkDeleteLocations (db : DB) (locationIds : List String)
    (organizationId : String) : DB :=
  let selected := db.locations.filter (bulkDeleteMatches locationIds organizationId)
  let selectedIds := selected.map Location.id
  let imageIds := selected.filterMap Location.imageId
  { locations := db.locations.filter fun l => !(l.id ∈ selectedIds : Bool)
    images := db.images.filter fun i => !(i ∈ imageIds : Bool) }

/-! ## Bulk-update modal lifecycle

The `useBulkModal` hook lives in `./bulk-update-modal`, outside the provided
sources; `useBulkLocationUpdateModal` only consumes its `disabled` flag and
`handleCloseDialog`. Modelled from the spec: the controller owns
`{ isOpen, isSubmitting }`; `open()` sets `isOpen`; `close()` is a no-op
while a submission is in flight; `onSubmitStart` locks, `onSubmitEnd`
unlocks and closes.
-/

/-- Modelled from the spec: the modal lifecycle controller's state
`BulkModalState = { isOpen, isSubmitting }`. -/
structure BulkModalState where
  isOpen : Bool
  isSubmitting : Bool
  deriving DecidableEq, Repr

/-- Modelled from the spec: `open()` sets `isOpen = true` (a no-op when
already open). -/
def openModal (s : BulkModalState) : BulkModalState :=
  { s with isOpen := true }

/-- Modelled from the spec: `close()` sets `isOpen = false` but fails
silently (no-op) while `isSubmitting` is true. -/
def handleCloseDialog (s : BulkModalState) : BulkModalState :=
  if s.isSubmitting then s else { s with isOpen := false }

/-- Modelled from the spec: `onSubmitStart()` sets `isSubmitting = true`. -/
def onSubmitStart (s : BulkModalState) : BulkModalState :=
  { s with isSubmitting := true }

/-- Modelled from the spec: `onSubmitEnd()` sets `isSubmitting = false` and
auto-closes. -/
def onSubmitEnd (_ : BulkModalState) : BulkModalState :=
  { isOpen := false, isSubmitting := false }

/-! ## `NewNoteSchema` -/

/-- `z.object({ content: z.string().min(3, "Content is required") })`:
contents shorter than 3 characters fail validation with that message. -/
def NewNoteSchema (content : String) : Except String String :=
  if 3 ≤ content.length then .ok content else .error "Content is required"

/-! ## Asset-detail `action`

The route action parses the `intent` discriminator with
`z.enum(["delete", "toggle"])`, requires the matching permission, and
switches on the intent; everything thrown is caught at the boundary and
returned as `json(error(reason), { status: reason.status })`.
The collaborating services (`requirePermission`, `deleteAsset`,
`updateAssetBookingAvailability`, `parseData`, `makeShelfError`) live
outside the provided sources and enter the model as environment values.
-/

/-- The two intents accepted by the asset-detail action's
`z.enum(["delete", "toggle"])`. -/
inductive Intent where
  | delete
  | toggle
  deriving DecidableEq, Repr

/-- Modelled from the spec: `parseData` with `z.enum(["delete","toggle"])`
— any other intent value fails schema validation with a 400-status
`ShelfError`. -/
def parseIntent (s : String) : Except ShelfError Intent :=
  if s = "delete" then .ok .delete
  else if s = "toggle" then .ok .toggle
  else
    .error
      { status := 400, message := "Invalid request. Please try again."
        shouldBeCaptured := false }

/-- The transform of `AvailabilityForBookingFormSchema`:
`z.string().transform((val) => val === "on").default("false")`. -/
def availabilityTransform (availableToBook : Option String) : Bool :=
  availableToBook.getD "false" = "on"

/-- A route response: a redirect, a JSON `data` envelope, or a JSON `error`
envelope carrying the normalized error's status. -/
inductive ActionResponse where
  | redirect (url : String)
  | jsonData
  | jsonError (status : Nat) (message : String)
  deriving DecidableEq, Repr

/-- The external collaborators of the asset-detail action:
`requirePermission` (yielding the caller's organization id), `deleteAsset`
and `updateAssetBookingAvailability`, each failing with a `ShelfError`. -/
structure ActionEnv where
  requirePermission : Intent → Except ShelfError String
  deleteAsset : Except ShelfError Unit
  updateAssetBookingAvailability : Bool → Except ShelfError Unit

/-- The asset-detail `action`: parse the `intent` discriminator, check the
permission mapped to it, route to the one matching handler — `delete`
deletes the asset and redirects to `/assets`, `toggle` updates the booking
availability and returns a JSON data envelope — and catch every thrown
error into a JSON error envelope with the error's status
(`makeShelfError` keeps an already-shaped `ShelfError`, modelled from the
spec). -/
def action (env : ActionEnv) (intent : String) (availableToBook : Option String) :
    ActionResponse :=
  match parseIntent intent with
  | .error e => .jsonError e.status e.message
  | .ok i =>
    match env.requirePermission i with
    | .error e => .jsonError e.status e.message
    | .ok _ =>
      match i with
      | .delete =>
        match env.deleteAsset with
        | .error e => .jsonError e.status e.message
        | .ok _ => .redirect "/assets"
      | .toggle =>
        match env.updateAssetBookingAvailability (availabilityTransform availableToBook) with
        | .error e => .jsonError e.status e.message
        | .ok _ => .jsonData

/-! ## Theorems -/

/-- Claim C5: for `getLocations` and the asset sub-listing of `getLocation`
(both compute `skip` and `take` by `skipOf`/`takeOf`): `perPage < 1` yields
the default page size 8, otherwise the page size equals `perPage`; the
records skipped are `(page - 1) * perPage` when `page > 1` and 0 otherwise,
so page 2 with perPage 8 skips exactly 8 records. -/
theorem C5_pagination (page perPage : Int) :
    (perPage < 1 → takeOf perPage = 8) ∧
    (1 ≤ perPage → takeOf perPage = perPage) ∧
    (1 < page → skipOf page perPage = (page - 1) * perPage) ∧
    (page ≤ 1 → skipOf page perPage = 0) ∧
    skipOf 2 8 = 8 := by
  refine ⟨fun h => ?_, fun h => ?_, fun h => ?_, fun h => ?_, by decide⟩
  · rw [takeOf, if_neg (by omega)]
  · rw [takeOf, if_pos h]
  · rw [skipOf, if_pos h]
  · rw [skipOf, if_neg (by omega)]

/-- Witness for C5 at concrete inputs. -/
theorem C5_pagination_witness :
    takeOf 0 = 8 ∧ takeOf 5 = 5 ∧ skipOf 2 8 = 8 ∧ skipOf 1 8 = 0 :=
  ⟨(C5_pagination 2 0).1 (by decide), (C5_pagination 2 5).2.1 (by decide),
    ((C5_pagination 2 8).2.2.1 (by decide)).trans (by decide),
    (C5_pagination 1 8).2.2.2.1 (by decide)⟩

/-- Claim C6 (refuted): the code computes
`take = perPage >= 1 ? perPage : 8` and never clamps to the documented
maximum of 25 — at `perPage = 100` the effective page size is 100. -/
theorem C6_takeOf_not_clamped : takeOf 100 = 100 ∧ ¬ takeOf 100 ≤ 25 := by
  constructor <;> decide

/-- Claim C10: the new-note schema requires `content` to have at least 3
characters; shorter content fails validation with "Content is required". -/
theorem C10_NewNoteSchema_min3 (content : String) :
    (content.length < 3 → NewNoteSchema content = .error "Content is required") ∧
    (3 ≤ content.length → NewNoteSchema content = .ok content) := by
  refine ⟨fun h => ?_, fun h => ?_⟩
  · rw [NewNoteSchema, if_neg (by omega)]
  · rw [NewNoteSchema, if_pos h]

/-- Witness for C10 at "ab" (too short) and "abc" (accepted). -/
theorem C10_NewNoteSchema_min3_witness :
    NewNoteSchema "ab" = .error "Content is required" ∧
    NewNoteSchema "abc" = .ok "abc" :=
  ⟨(C10_NewNoteSchema_min3 "ab").1 (by decide),
    (C10_NewNoteSchema_min3 "abc").2 (by decide)⟩

/-- Claim C2: `close()` while `isSubmitting = true` leaves the state
unchanged (so `isOpen` keeps its value, in particular stays true on an open
modal); only with `isSubmitting = false` does `close()` set
`isOpen = false`. -/
theorem C2_close_noop_while_submitting (s : BulkModalState) :
    (s.isSubmitting = true →
      handleCloseDialog s = s ∧ (handleCloseDialog s).isOpen = s.isOpen) ∧
    (s.isSubmitting = false → (handleCloseDialog s).isOpen = false) := by
  refine ⟨fun h => ?_, fun h => ?_⟩
  · rw [handleCloseDialog, if_pos h]
    exact ⟨rfl, rfl⟩
  · rw [handleCloseDialog, if_neg (by simp [h])]

/-- Witness for C2 on an open submitting state and an open idle state. -/
theorem C2_close_noop_while_submitting_witness :
    handleCloseDialog ⟨true, true⟩ = ⟨true, true⟩ ∧
    (handleCloseDialog ⟨true, false⟩).isOpen = false :=
  ⟨((C2_close_noop_while_submitting ⟨true, true⟩).1 rfl).1,
    (C2_close_noop_while_submitting ⟨true, false⟩).2 rfl⟩

/-- Claim C8: the `intent` discriminator routes to exactly one handler —
`delete` deletes the asset and redirects, `toggle` updates booking
availability and returns a JSON data envelope, and any other intent value
or a thrown handler error yields a JSON error envelope carrying the
error's status. -/
theorem C8_action_intent_routing (env : ActionEnv) (intent : String)
    (availableToBook : Option String) :
    (∀ org, intent = "delete" → env.requirePermission .delete = .ok org →
      env.deleteAsset = .ok () →
      action env intent availableToBook = .redirect "/assets") ∧
    (∀ org, intent = "toggle" → env.requirePermission .toggle = .ok org →
      env.updateAssetBookingAvailability (availabilityTransform availableToBook) = .ok () →
      action env intent availableToBook = .jsonData) ∧
    (intent ≠ "delete" → intent ≠ "toggle" →
      ∃ e : ShelfError,
        parseIntent intent = .error e ∧
        action env intent availableToBook = .jsonError e.status e.message) ∧
    (∀ e org, intent = "delete" → env.requirePermission .delete = .ok org →
      env.deleteAsset = .error e →
      action env intent availableToBook = .jsonError e.status e.message) := by
  refine ⟨fun org h1 h2 h3 => ?_, fun org h1 h2 h3 => ?_,
    fun h1 h2 => ?_, fun e org h1 h2 h3 => ?_⟩
  · subst h1; simp [action, parseIntent, h2, h3]
  · subst h1; simp [action, parseIntent, h2, h3]
  · refine ⟨ShelfError.mk 400 "Invalid request. Please try again." false, ?_, ?_⟩
    · rw [parseIntent, if_neg h1, if_neg h2]
    · simp [action, parseIntent, h1, h2]
  · subst h1; simp [action, parseIntent, h2, h3]

/-- Witness for C8: a concrete environment where every collaborator
succeeds, exercised at all three routes. -/
theorem C8_action_intent_routing_witness :
    action ⟨fun _ => .ok "org1", .ok (), fun _ => .ok ()⟩ "delete" none =
      .redirect "/assets" ∧
    action ⟨fun _ => .ok "org1", .ok (), fun _ => .ok ()⟩ "toggle" (some "on") =
      .jsonData ∧
    (∃ e : ShelfError,
      parseIntent "bulk-update-location" = .error e ∧
      action ⟨fun _ => .ok "org1", .ok (), fun _ => .ok ()⟩
        "bulk-update-location" none = .jsonError e.status e.message) :=
  ⟨(C8_action_intent_routing ⟨fun _ => .ok "org1", .ok (), fun _ => .ok ()⟩
      "delete" none).1 "org1" rfl rfl rfl,
    (C8_action_intent_routing ⟨fun _ => .ok "org1", .ok (), fun _ => .ok ()⟩
      "toggle" (some "on")).2.1 "org1" rfl rfl rfl,
    (C8_action_intent_routing ⟨fun _ => .ok "org1", .ok (), fun _ => .ok ()⟩
      "bulk-update-location" none).2.2.1 (by decide) (by decide)⟩

/-- Propositional reading of the bulk-delete where object. -/
theorem bulkDeleteMatches_true_iff (ids : List String) (org : String)
    (l : Location) :
    (bulkDeleteMatches ids org l = true ↔
      if ALL_SELECTED_KEY ∈ ids then l.organizationId = org
      else l.id ∈ ids ∧ l.organizationId = org) := by
  unfold bulkDeleteMatches
  by_cases h : ALL_SELECTED_KEY ∈ ids
  · rw [if_pos h, if_pos h, decide_eq_true_iff]
  · rw [if_neg h, if_neg h, Bool.and_eq_true, decide_eq_true_iff, decide_eq_true_iff]

/-- A row of the location table survives `bulkDeleteLocations` exactly when
it does not match the bulk-delete where object (location ids unique). -/
theorem mem_bulkDeleteLocations_iff {db : DB} {ids : List String}
    {org : String} (hids : (db.locations.map Location.id).Nodup)
    {l : Location} (hl : l ∈ db.locations) :
    (l ∈ (bulkDeleteLocations db ids org).locations ↔
      ¬ bulkDeleteMatches ids org l = true) := by
  have key :
      ((decide (l.id ∈ (db.locations.filter
        (bulkDeleteMatches ids org)).map Location.id)) = true ↔
        bulkDeleteMatches ids org l = true) := by
    rw [decide_eq_true_iff]
    simp only [List.mem_map, List.mem_filter]
    constructor
    · rintro ⟨l2, ⟨hl2, hp2⟩, heq⟩
      rwa [List.inj_on_of_nodup_map hids hl2 hl heq] at hp2
    · intro hp
      exact ⟨l, ⟨hl, hp⟩, rfl⟩
  have keq : (decide (l.id ∈ (db.locations.filter
      (bulkDeleteMatches ids org)).map Location.id)) =
      bulkDeleteMatches ids org l := Bool.eq_iff_iff.mpr key
  simp only [bulkDeleteLocations, List.mem_filter, hl, true_and, keq,
    Bool.not_eq_true', Bool.not_eq_true]

/-- Claim C1: when the id list handed to `bulkDeleteLocations` contains the
"all selected" sentinel, every location of the organization is deleted
(and only those), regardless of which concrete ids also appear; without
the sentinel, exactly the listed ids belonging to the organization are
deleted. -/
theorem C1_bulkDeleteLocations_sentinel (db : DB) (ids : List String)
    (org : String) (hids : (db.locations.map Location.id).Nodup) :
    (ALL_SELECTED_KEY ∈ ids →
      ∀ l ∈ db.locations,
        (l ∈ (bulkDeleteLocations db ids org).locations ↔
          l.organizationId ≠ org)) ∧
    (ALL_SELECTED_KEY ∉ ids →
      ∀ l ∈ db.locations,
        (l ∈ (bulkDeleteLocations db ids org).locations ↔
          ¬(l.id ∈ ids ∧ l.organizationId = org))) := by
  constructor
  · intro hs l hl
    rw [mem_bulkDeleteLocations_iff hids hl]
    exact not_congr ((bulkDeleteMatches_true_iff ids org l).trans (iff_of_eq (if_pos hs)))
  · intro hs l hl
    rw [mem_bulkDeleteLocations_iff hids hl]
    exact not_congr ((bulkDeleteMatches_true_iff ids org l).trans (iff_of_eq (if_neg hs)))

/-- Witness for C1: with the sentinel present the organization's location
is gone even though only an unrelated concrete id was listed, while the
other organization's location stays; without the sentinel only the listed
id is deleted. -/
theorem C1_bulkDeleteLocations_sentinel_witness :
    (¬ Location.mk "loc1" "Depot" "org1" "u1" none ∈
      (bulkDeleteLocations
        ⟨[⟨"loc1", "Depot", "org1", "u1", none⟩,
          ⟨"loc2", "Annex", "org2", "u1", none⟩], []⟩
        ["loc2", ALL_SELECTED_KEY] "org1").locations) ∧
    (Location.mk "loc2" "Annex" "org2" "u1" none ∈
      (bulkDeleteLocations
        ⟨[⟨"loc1", "Depot", "org1", "u1", none⟩,
          ⟨"loc2", "Annex", "org2", "u1", none⟩], []⟩
        ["loc2", ALL_SELECTED_KEY] "org1").locations) ∧
    (Location.mk "loc1" "Depot" "org1" "u1" none ∈
      (bulkDeleteLocations
        ⟨[⟨"loc1", "Depot", "org1", "u1", none⟩,
          ⟨"loc2", "Annex", "org2", "u1", none⟩], []⟩
        ["loc2"] "org1").locations) :=
  ⟨fun h =>
      (((C1_bulkDeleteLocations_sentinel
        ⟨[⟨"loc1", "Depot", "org1", "u1", none⟩,
          ⟨"loc2", "Annex", "org2", "u1", none⟩], []⟩
        ["loc2", ALL_SELECTED_KEY] "org1" (by decide)).1 (by decide)
        ⟨"loc1", "Depot", "org1", "u1", none⟩ (by decide)).mp h) rfl,
    ((C1_bulkDeleteLocations_sentinel
        ⟨[⟨"loc1", "Depot", "org1", "u1", none⟩,
          ⟨"loc2", "Annex", "org2", "u1", none⟩], []⟩
        ["loc2", ALL_SELECTED_KEY] "org1" (by decide)).1 (by decide)
        ⟨"loc2", "Annex", "org2", "u1", none⟩ (by decide)).mpr (by decide),
    ((C1_bulkDeleteLocations_sentinel
        ⟨[⟨"loc1", "Depot", "org1", "u1", none⟩,
          ⟨"loc2", "Annex", "org2", "u1", none⟩], []⟩
        ["loc2"] "org1" (by decide)).2 (by decide)
        ⟨"loc1", "Depot", "org1", "u1", none⟩ (by decide)).mpr (by decide)⟩

/-- Claim C3: when no location in the table carries the requested id within
the caller's organization — because the id does not exist at all or because
it belongs to another organization — `getLocation` fails with a 404-status
error, so the two cases are indistinguishable by status. -/
theorem C3_getLocation_404 (db : DB) (assets : List Asset)
    (locId orgId : String) (userOrgs : List String) (page perPage : Int)
    (search : Option String)
    (h : ∀ l ∈ db.locations, l.id = locId → l.organizationId ≠ orgId) :
    ∃ e : ShelfError,
      getLocation db assets locId orgId userOrgs page perPage search =
        .error e ∧ e.status = 404 := by
  unfold getLocation
  cases hfind : db.locations.find? (getLocationFindCond locId orgId userOrgs) with
  | none => exact ⟨_, rfl, rfl⟩
  | some l =>
    have hmem := List.mem_of_find?_eq_some hfind
    have hcond := List.find?_some hfind
    unfold getLocationFindCond at hcond
    rw [Bool.and_eq_true, decide_eq_true_iff, Bool.or_eq_true,
      decide_eq_true_iff, Bool.and_eq_true, decide_eq_true_iff] at hcond
    obtain ⟨hid, hor⟩ := hcond
    have hne := h l hmem hid
    rcases hor with hsame | ⟨hnonempty, hin⟩
    · exact absurd hsame hne
    · dsimp only
      rw [if_pos (by simp [hnonempty, hne, hin])]
      exact ⟨_, rfl, rfl⟩

/-- Witness for C3: a one-row table owned by another organization, queried
with and without the cross-organization memberships. -/
theorem C3_getLocation_404_witness :
    (∃ e : ShelfError,
      getLocation ⟨[⟨"loc1", "Depot", "org2", "u1", none⟩], []⟩ []
        "loc1" "org1" ["org2"] 1 8 none = .error e ∧ e.status = 404) ∧
    (∃ e : ShelfError,
      getLocation ⟨[⟨"loc1", "Depot", "org2", "u1", none⟩], []⟩ []
        "missing" "org1" [] 1 8 none = .error e ∧ e.status = 404) :=
  ⟨C3_getLocation_404 ⟨[⟨"loc1", "Depot", "org2", "u1", none⟩], []⟩ []
      "loc1" "org1" ["org2"] 1 8 none (by decide),
    C3_getLocation_404 ⟨[⟨"loc1", "Depot", "org2", "u1", none⟩], []⟩ []
      "missing" "org1" [] 1 8 none (by decide)⟩

/-- A successful `deleteLocation` removes the deleted location's image row
whenever it had one. -/
theorem deleteLocation_deletes_image (db : DB) (locId orgId : String)
    (l : Location) (db2 : DB) (i : String)
    (h : deleteLocation db locId orgId = .ok (l, db2))
    (hi : l.imageId = some i) :
    i ∉ db2.images := by
  unfold deleteLocation at h
  split at h
  · cases h
  · rename_i l0 hfind
    split at h
    · rename_i himg
      simp only [Except.ok.injEq, Prod.mk.injEq] at h
      obtain ⟨hl, hdb⟩ := h
      subst hl
      rw [himg] at hi
      cases hi
    · rename_i imgId himg
      dsimp only at h
      split at h
      · rename_i hc
        simp only [Except.ok.injEq, Prod.mk.injEq] at h
        obtain ⟨hl, hdb⟩ := h
        subst hl
        rw [himg] at hi
        injection hi with hii
        subst hii
        subst hdb
        simp [List.mem_filter]
      · cases h

/-- Every location targeted by `bulkDeleteLocations` has its image row
removed in the same transaction. -/
theorem bulkDeleteLocations_deletes_images (db : DB) (ids : List String)
    (org : String) (l : Location) (i : String) (hl : l ∈ db.locations)
    (hp : bulkDeleteMatches ids org l = true) (hi : l.imageId = some i) :
    i ∉ (bulkDeleteLocations db ids org).images := by
  intro hmem
  unfold bulkDeleteLocations at hmem
  simp only [List.mem_filter, Bool.not_eq_true', decide_eq_false_iff_not]
    at hmem
  exact hmem.2 (List.mem_filterMap.mpr ⟨l, List.mem_filter.mpr ⟨hl, hp⟩, hi⟩)

/-- Claim C9: deleting locations leaves no orphaned image rows —
`deleteLocation` deletes the image row of a deleted location that had one,
and `bulkDeleteLocations` deletes, within its single transactional state
change, the image row of every targeted location that had one. -/
theorem C9_no_orphaned_images (db : DB) :
    (∀ locId orgId l db2 i,
      deleteLocation db locId orgId = .ok (l, db2) → l.imageId = some i →
      i ∉ db2.images) ∧
    (∀ ids org, ∀ l ∈ db.locations, ∀ i,
      bulkDeleteMatches ids org l = true → l.imageId = some i →
      i ∉ (bulkDeleteLocations db ids org).images) :=
  ⟨fun locId orgId l db2 i h hi =>
      deleteLocation_deletes_image db locId orgId l db2 i h hi,
    fun ids org l hl i hp hi =>
      bulkDeleteLocations_deletes_images db ids org l i hl hp hi⟩

/-- Witness for C9: a location with image "img1" is deleted singly and in
bulk; the image row is gone both times. -/
theorem C9_no_orphaned_images_witness :
    ¬ "img1" ∈ (DB.mk [] ["keep"]).images ∧
    ¬ "img1" ∈ (bulkDeleteLocations
      ⟨[⟨"loc1", "Depot", "org1", "u1", some "img1"⟩], ["img1", "keep"]⟩
      [ALL_SELECTED_KEY] "org1").images :=
  ⟨(C9_no_orphaned_images
      ⟨[⟨"loc1", "Depot", "org1", "u1", some "img1"⟩], ["img1", "keep"]⟩).1
      "loc1" "org1" ⟨"loc1", "Depot", "org1", "u1", some "img1"⟩
      ⟨[], ["keep"]⟩ "img1" rfl rfl,
    (C9_no_orphaned_images
      ⟨[⟨"loc1", "Depot", "org1", "u1", some "img1"⟩], ["img1", "keep"]⟩).2
      [ALL_SELECTED_KEY] "org1" ⟨"loc1", "Depot", "org1", "u1", some "img1"⟩
      (by decide) "img1" (by decide) rfl⟩

/-- Claim C4: `createLocation` and `updateLocation` fail with the
user-facing duplicate-name error (validation status 400) when the chosen
name is already used by another location of the same organization, and
succeed when the name is only used in other organizations. -/
theorem C4_duplicate_name (locations : List Location)
    (newId userId name locId newName orgId : String) :
    ((∃ l ∈ locations, l.name = name ∧ l.organizationId = orgId) →
      ∃ e : ShelfError,
        createLocation locations newId name userId orgId = .error e ∧
        e.message =
          "Location name is already taken. Please choose a different name." ∧
        e.status = 400) ∧
    ((∀ l ∈ locations, l.name = name → l.organizationId ≠ orgId) →
      ∃ r, createLocation locations newId name userId orgId = .ok r) ∧
    ((∃ l ∈ locations, l.id = locId ∧ l.organizationId = orgId) →
      (∃ l2 ∈ locations,
        l2.id ≠ locId ∧ l2.name = newName ∧ l2.organizationId = orgId) →
      ∃ e : ShelfError,
        updateLocation locations locId orgId (some newName) = .error e ∧
        e.message =
          "Location name is already taken. Please choose a different name." ∧
        e.status = 400) ∧
    ((∃ l ∈ locations, l.id = locId ∧ l.organizationId = orgId) →
      (∀ l2 ∈ locations, l2.name = newName → l2.organizationId = orgId →
        l2.id = locId) →
      ∃ r, updateLocation locations locId orgId (some newName) = .ok r) := by
  refine ⟨fun hdup => ?_, fun hfree => ?_, fun htarget hdup => ?_,
    fun htarget hfree => ?_⟩
  · obtain ⟨l, hl, h1, h2⟩ := hdup
    have hany : (locations.any fun l2 =>
        decide (l2.name = name) && decide (l2.organizationId = orgId)) = true :=
      List.any_eq_true.mpr ⟨l, hl, by simp [h1, h2]⟩
    refine ⟨maybeUniqueConstraintViolation .dbUniqueViolation "Location",
      ?_, by decide, rfl⟩
    unfold createLocation dbLocationCreate
    dsimp only
    rw [if_pos hany]
  · have hany : (locations.any fun l2 =>
        decide (l2.name = name) && decide (l2.organizationId = orgId)) = false := by
      rw [List.any_eq_false]
      intro l hl
      simp only [Bool.and_eq_true, decide_eq_true_iff]
      rintro ⟨h1, h2⟩
      exact hfree l hl h1 h2
    refine ⟨(⟨newId, name, orgId, userId, none⟩,
      locations ++ [⟨newId, name, orgId, userId, none⟩]), ?_⟩
    unfold createLocation dbLocationCreate
    dsimp only
    rw [if_neg (by simp [hany])]
  · have hsome : (locations.find? fun l =>
        decide (l.id = locId) && decide (l.organizationId = orgId)).isSome := by
      rw [List.find?_isSome]
      obtain ⟨l, hl, h1, h2⟩ := htarget
      exact ⟨l, hl, by simp [h1, h2]⟩
    obtain ⟨l0, hfind⟩ := Option.isSome_iff_exists.mp hsome
    obtain ⟨l2, hl2, hne, hnm, horg⟩ := hdup
    have hany : (locations.any fun l3 =>
        decide (l3.id ≠ locId) && decide (l3.name = newName) &&
          decide (l3.organizationId = orgId)) = true :=
      List.any_eq_true.mpr ⟨l2, hl2, by simp [hne, hnm, horg]⟩
    refine ⟨maybeUniqueConstraintViolation .dbUniqueViolation "Location",
      ?_, by decide, rfl⟩
    unfold updateLocation dbLocationUpdate
    rw [hfind]
    dsimp only [Option.getD]
    rw [if_pos hany]
  · have hsome : (locations.find? fun l =>
        decide (l.id = locId) && decide (l.organizationId = orgId)).isSome := by
      rw [List.find?_isSome]
      obtain ⟨l, hl, h1, h2⟩ := htarget
      exact ⟨l, hl, by simp [h1, h2]⟩
    obtain ⟨l0, hfind⟩ := Option.isSome_iff_exists.mp hsome
    have hany : (locations.any fun l3 =>
        decide (l3.id ≠ locId) && decide (l3.name = newName) &&
          decide (l3.organizationId = orgId)) = false := by
      rw [List.any_eq_false]
      intro l3 hl3
      simp only [Bool.and_eq_true, decide_eq_true_iff]
      rintro ⟨⟨hne3, hnm3⟩, horg3⟩
      exact hne3 (hfree l3 hl3 hnm3 horg3)
    cases hres : dbLocationUpdate locations locId orgId (some newName) with
    | ok r =>
      refine ⟨r, ?_⟩
      unfold updateLocation
      rw [hres]
    | error c =>
      exfalso
      unfold dbLocationUpdate at hres
      rw [hfind] at hres
      dsimp only [Option.getD] at hres
      rw [if_neg (by rw [hany]; exact Bool.false_ne_true)] at hres
      cases hres

/-- Witness for C4 on a three-location table: creating "Depot" again in
org1 fails with the duplicate message, creating org2's "Annex" inside org1
succeeds, renaming loc1 to org1's existing "Stock" fails, renaming loc1 to
a fresh name succeeds. -/
theorem C4_duplicate_name_witness :
    (∃ e : ShelfError,
      createLocation
        [⟨"loc1", "Depot", "org1", "u1", none⟩,
          ⟨"loc2", "Annex", "org2", "u1", none⟩,
          ⟨"loc3", "Stock", "org1", "u1", none⟩] "new1" "Depot" "u1" "org1" =
        .error e ∧
      e.message =
        "Location name is already taken. Please choose a different name." ∧
      e.status = 400) ∧
    (∃ r, createLocation
        [⟨"loc1", "Depot", "org1", "u1", none⟩,
          ⟨"loc2", "Annex", "org2", "u1", none⟩,
          ⟨"loc3", "Stock", "org1", "u1", none⟩] "new1" "Annex" "u1" "org1" =
        .ok r) ∧
    (∃ e : ShelfError,
      updateLocation
        [⟨"loc1", "Depot", "org1", "u1", none⟩,
          ⟨"loc2", "Annex", "org2", "u1", none⟩,
          ⟨"loc3", "Stock", "org1", "u1", none⟩] "loc1" "org1" (some "Stock") =
        .error e ∧
      e.message =
        "Location name is already taken. Please choose a different name." ∧
      e.status = 400) ∧
    (∃ r, updateLocation
        [⟨"loc1", "Depot", "org1", "u1", none⟩,
          ⟨"loc2", "Annex", "org2", "u1", none⟩,
          ⟨"loc3", "Stock", "org1", "u1", none⟩] "loc1" "org1" (some "Qux") =
        .ok r) :=
  ⟨(C4_duplicate_name
      [⟨"loc1", "Depot", "org1", "u1", none⟩,
        ⟨"loc2", "Annex", "org2", "u1", none⟩,
        ⟨"loc3", "Stock", "org1", "u1", none⟩]
      "new1" "u1" "Depot" "loc1" "Stock" "org1").1 (by decide),
    (C4_duplicate_name
      [⟨"loc1", "Depot", "org1", "u1", none⟩,
        ⟨"loc2", "Annex", "org2", "u1", none⟩,
        ⟨"loc3", "Stock", "org1", "u1", none⟩]
      "new1" "u1" "Annex" "loc1" "Stock" "org1").2.1 (by decide),
    (C4_duplicate_name
      [⟨"loc1", "Depot", "org1", "u1", none⟩,
        ⟨"loc2", "Annex", "org2", "u1", none⟩,
        ⟨"loc3", "Stock", "org1", "u1", none⟩]
      "new1" "u1" "Depot" "loc1" "Stock" "org1").2.2.1 (by decide) (by decide),
    (C4_duplicate_name
      [⟨"loc1", "Depot", "org1", "u1", none⟩,
        ⟨"loc2", "Annex", "org2", "u1", none⟩,
        ⟨"loc3", "Stock", "org1", "u1", none⟩]
      "new1" "u1" "Depot" "loc1" "Qux" "org1").2.2.2 (by decide) (by decide)⟩

/-- Claim C7: with a non-empty search string the where object built by
`getLocations` matches exactly the organization's locations whose name
contains the search as a case-insensitive substring — every page served by
`getLocations` and its total count range over exactly that set — and
`getLocation` filters the location's assets the same way on `title`. -/
theorem C7_search_filter (locations : List Location) (assets : List Asset)
    (orgId s : String) (page perPage : Int) (hs : s ≠ "") :
    (∀ l : Location,
      l ∈ getLocationsMatching locations orgId (some s) ↔
        l ∈ locations ∧ l.organizationId = orgId ∧ containsCI l.name s = true) ∧
    (∀ l ∈ (getLocations locations orgId page perPage (some s)).1,
      l ∈ locations ∧ l.organizationId = orgId ∧ containsCI l.name s = true) ∧
    ((getLocations locations orgId page perPage (some s)).2 =
      (getLocationsMatching locations orgId (some s)).length) ∧
    (∀ a : Asset,
      a ∈ assets.filter (assetMatchesWhere (buildAssetsWhere (some s))) ↔
        a ∈ assets ∧ containsCI a.title s = true) := by
  have hw : buildLocationsWhere orgId (some s) =
      ⟨orgId, some s⟩ := by
    unfold buildLocationsWhere
    dsimp only
    rw [if_neg hs]
  have main : ∀ l : Location,
      l ∈ getLocationsMatching locations orgId (some s) ↔
        l ∈ locations ∧ l.organizationId = orgId ∧ containsCI l.name s = true := by
    intro l
    unfold getLocationsMatching
    rw [hw, List.mem_filter]
    unfold locationMatchesWhere
    simp [Bool.and_eq_true, decide_eq_true_iff]
  refine ⟨main, fun l hl => ?_, rfl, fun a => ?_⟩
  · exact (main l).mp (List.mem_of_mem_drop (List.mem_of_mem_take hl))
  · have ha : buildAssetsWhere (some s) = some s := by
      unfold buildAssetsWhere
      dsimp only
      rw [if_neg hs]
    rw [ha, List.mem_filter]
    unfold assetMatchesWhere
    rfl

/-- Witness for C7 with search "WARE": the org1 location named
"Main Warehouse" matches, the org2 location named "Warehouse B" does not,
and the asset filter matches "Laptop Case" against "CAS". -/
theorem C7_search_filter_witness :
    (Location.mk "loc1" "Main Warehouse" "org1" "u1" none ∈
      getLocationsMatching
        [⟨"loc1", "Main Warehouse", "org1", "u1", none⟩,
          ⟨"loc2", "office", "org1", "u1", none⟩,
          ⟨"loc3", "Warehouse B", "org2", "u1", none⟩] "org1" (some "WARE")) ∧
    ¬ (Location.mk "loc3" "Warehouse B" "org2" "u1" none ∈
      getLocationsMatching
        [⟨"loc1", "Main Warehouse", "org1", "u1", none⟩,
          ⟨"loc2", "office", "org1", "u1", none⟩,
          ⟨"loc3", "Warehouse B", "org2", "u1", none⟩] "org1" (some "WARE")) ∧
    (Asset.mk "a1" "Laptop Case" "loc1" ∈
      [Asset.mk "a1" "Laptop Case" "loc1"].filter
        (assetMatchesWhere (buildAssetsWhere (some "CAS")))) :=
  ⟨((C7_search_filter
      [⟨"loc1", "Main Warehouse", "org1", "u1", none⟩,
        ⟨"loc2", "office", "org1", "u1", none⟩,
        ⟨"loc3", "Warehouse B", "org2", "u1", none⟩] [] "org1" "WARE" 1 8
      (by decide)).1 ⟨"loc1", "Main Warehouse", "org1", "u1", none⟩).mpr
      (by refine ⟨by decide, by decide, ?_⟩; decide),
    fun h =>
      absurd (((C7_search_filter
        [⟨"loc1", "Main Warehouse", "org1", "u1", none⟩,
          ⟨"loc2", "office", "org1", "u1", none⟩,
          ⟨"loc3", "Warehouse B", "org2", "u1", none⟩] [] "org1" "WARE" 1 8
        (by decide)).1 ⟨"loc3", "Warehouse B", "org2", "u1", none⟩).mp h).2.1
        (by decide),
    ((C7_search_filter [] [Asset.mk "a1" "Laptop Case" "loc1"] "org1" "CAS" 1 8
      (by decide)).2.2.2 (Asset.mk "a1" "Laptop Case" "loc1")).mpr
      ⟨by decide, by decide⟩⟩

end Shelf

